import Mathlib

/-!
# Verification of the vip-sentinel VIP service

Shallow embedding of the core logic of `src/vip-service.js` (the concatenated
`VIPService` / `VIPManager` modules): VIP expiration analysis, platform
classification, the fallback VIP-file formatter, the backup-retention sweep,
the scheduled-backup and health-check orchestration, and the service
start/stop state machine.

Timestamps are modelled as integer epoch milliseconds.  JavaScript
`new Date(string)` is modelled by an abstract valuation
`parseDate : String → Option Int` (`none` models an Invalid Date, whose NaN
comparisons are all false).  Side effects (file writes, Discord webhook
calls) are modelled as an explicit list of `Effect` values emitted by each
operation.
-/

namespace VipSentinel

/-- One VIP grant as returned by the CRCON `get_vip_ids` endpoint
(field names follow `vip-manager.js`).  `expiration` is the raw string from
the API; an absent field is `none`. -/
structure VipRecord where
  player_id : String
  name : String
  expiration : Option String
  description : Option String
deriving DecidableEq, Repr

/-- JavaScript `String.prototype.startsWith`, modelled on character lists. -/
def jsStartsWith (s p : String) : Bool := p.data.isPrefixOf s.data

/-- Platform bucket used by `analyzeVips`. -/
inductive Platform where
  | pc
  | console
  | unknown
deriving DecidableEq, Repr

/-- Platform detection from `VIPManager.analyzeVips`:
`player_id.startsWith('76561198')` ⇒ pc, else `startsWith('11000') ||
startsWith('76561199')` ⇒ console, else unknown. -/
def platformOf (pid : String) : Platform :=
  if jsStartsWith pid "76561198" then .pc
  else if jsStartsWith pid "11000" || jsStartsWith pid "76561199" then .console
  else .unknown

/-- The `analysis.platforms` sub-object. -/
structure PlatformCounts where
  pc : Nat
  console : Nat
  unknown : Nat
deriving DecidableEq, Repr

/-- The `analysis` object built by `VIPManager.analyzeVips`. -/
structure Analysis where
  total : Nat
  permanent : Nat
  temporary : Nat
  expired : Nat
  expiringSoon : Nat
  expiringToday : Nat
  platforms : PlatformCounts
deriving DecidableEq, Repr

/-- `1000 * 60 * 60 * 24` milliseconds. -/
def msPerDay : Int := 1000 * 60 * 60 * 24

/-- `Math.ceil (a / b)` for an integer numerator and positive integer
denominator (the division in the source is exact rational division of
millisecond differences). -/
def ceilDiv (a b : Int) : Int := -((-a).fdiv b)

/-- The permanence test `!vip.expiration || vip.expiration === 'None'`
(a missing, empty, or `'None'` expiration means a permanent VIP). -/
def isPermanentExp : Option String → Bool
  | none => true
  | some s => s == "" || s == "None"

/-- The zero-initialised `analysis` accumulator (with `total` set to
`vipList.length` up front, as in the source). -/
def initAnalysis (n : Nat) : Analysis :=
  { total := n, permanent := 0, temporary := 0, expired := 0,
    expiringSoon := 0, expiringToday := 0,
    platforms := { pc := 0, console := 0, unknown := 0 } }

/-- Increment the platform counter selected by `platformOf`. -/
def bumpPlatform (a : Analysis) (pid : String) : Analysis :=
  match platformOf pid with
  | .pc => { a with platforms := { a.platforms with pc := a.platforms.pc + 1 } }
  | .console => { a with platforms := { a.platforms with console := a.platforms.console + 1 } }
  | .unknown => { a with platforms := { a.platforms with unknown := a.platforms.unknown + 1 } }

/-- The body of the `vipList.forEach` loop in `analyzeVips`: platform
detection, then expiration analysis with
`daysUntilExpiry = Math.ceil((expDate - now) / (1000*60*60*24))` and the
alert pushes.  An unparseable expiration (`parseDate e = none`, i.e. an
Invalid Date) increments `temporary` but no temporal bucket, since NaN
comparisons are all false in JavaScript. -/
def vipStep (parseDate : String → Option Int) (now : Int)
    (acc : Analysis × List String) (vip : VipRecord) : Analysis × List String :=
  let a := bumpPlatform acc.1 vip.player_id
  if isPermanentExp vip.expiration then
    ({ a with permanent := a.permanent + 1 }, acc.2)
  else
    let a := { a with temporary := a.temporary + 1 }
    match vip.expiration with
    | none => (a, acc.2)
    | some e =>
      match parseDate e with
      | none => (a, acc.2)
      | some t =>
        let d := ceilDiv (t - now) msPerDay
        if d < 0 then
          ({ a with expired := a.expired + 1 },
            acc.2 ++ ["❌ **" ++ vip.name ++ "** expired " ++ toString d.natAbs ++ " days ago"])
        else if d = 0 then
          ({ a with expiringToday := a.expiringToday + 1 },
            acc.2 ++ ["🚨 **" ++ vip.name ++ "** expires TODAY"])
        else if d ≤ 7 then
          ({ a with expiringSoon := a.expiringSoon + 1 },
            acc.2 ++ ["⚠️ **" ++ vip.name ++ "** expires in " ++ toString d ++ " days"])
        else
          (a, acc.2)

/-- The pure core of `VIPManager.analyzeVips`: the fold of the `forEach`
loop over the VIP list, producing the `analysis` object and the `alerts`
array. -/
def analyzeCore (parseDate : String → Option Int) (now : Int)
    (l : List VipRecord) : Analysis × List String :=
  l.foldl (vipStep parseDate now) (initAnalysis l.length, [])

/-- An observable side effect of an operation: a file written to the backup
directory, or a `sendDiscordNotification(title, description, color)` call. -/
inductive Effect where
  | writeFile (filename : String) (content : String)
  | notify (title : String) (description : String) (color : Nat)
deriving DecidableEq, Repr

/-- `new Date().toISOString().replace(/[:.]/g, '-')`. -/
def sanitizeTs (s : String) : String :=
  ⟨s.data.map (fun c => if c = ':' ∨ c = '.' then '-' else c)⟩

/-- The per-record line of `VIPManager.formatVipList`:
`${vip.player_id} # ${vip.name}${expiration}${description}`. -/
def vipLine (vip : VipRecord) : String :=
  let expiration :=
    match vip.expiration with
    | some e => if e ≠ "" ∧ e ≠ "None" then " (expires: " ++ e ++ ")" else " (permanent)"
    | none => " (permanent)"
  let description :=
    match vip.description with
    | some d => if d ≠ "" then " - " ++ d else ""
    | none => ""
  vip.player_id ++ " # " ++ vip.name ++ expiration ++ description

/-- Decimal rendering of a natural number, modelling the JavaScript template
interpolation `${vipList.length}`. -/
def natDigits (n : Nat) : List Char := Nat.toDigits 10 n

/-- String form of `natDigits`. -/
def natStr (n : Nat) : String := ⟨natDigits n⟩

/-- `VIPManager.formatVipList` with the generation timestamp `ts` standing
for `new Date().toISOString()`: three `#`-comment header lines, a blank
line, then one line per record. -/
def formatVipList (ts : String) (vipList : List VipRecord) : String :=
  let header := "# VIP File Generated " ++ ts ++ "\n"
    ++ "# Total VIPs: " ++ natStr vipList.length ++ "\n"
    ++ "# Format: STEAM_ID_64 # Player_Name (expiration)\n\n"
  vipList.foldl (fun acc vip => acc ++ vipLine vip ++ "\n") header

/-- The `VIP Status Alert` notification body built at the end of
`analyzeVips`. -/
def statusAlertMsg (a : Analysis) : String :=
  "📊 **VIP Status Alert**\n"
  ++ (if a.expiringToday > 0 then "🚨 " ++ natStr a.expiringToday ++ " expire TODAY\n" else "")
  ++ (if a.expiringSoon > 0 then "⚠️ " ++ natStr a.expiringSoon ++ " expire within 7 days\n" else "")
  ++ (if a.expired > 0 then "❌ " ++ natStr a.expired ++ " already expired\n" else "")

/-- The analysis report text written by `analyzeVips`. -/
def reportText (ts : String) (a : Analysis) (alerts : List String) : String :=
  "VIP Analysis Report - " ++ ts ++ "\n"
  ++ "Total VIPs: " ++ natStr a.total ++ "\n"
  ++ "Permanent: " ++ natStr a.permanent ++ "\n"
  ++ "Temporary: " ++ natStr a.temporary ++ "\n"
  ++ "Expired: " ++ natStr a.expired ++ "\n"
  ++ "Expiring Soon: " ++ natStr a.expiringSoon ++ "\n"
  ++ "Expiring Today: " ++ natStr a.expiringToday ++ "\n\n"
  ++ (if alerts.length > 0 then
        "ALERTS:\n" ++ (alerts.foldl (fun acc al => acc ++ al ++ "\n") "")
      else "")

/-- `VIPManager.analyzeVips`.  `vipIds` is the outcome of the
`get_vip_ids` request (an exception or the decoded array).  Returns the
analysis (or the propagated error) together with the emitted effects: the
report file write, then the `VIP Status Alert` notification when any of
the expired / expiring-today / expiring-soon buckets is nonzero. -/
def analyzeVips (parseDate : String → Option Int) (now : Int) (ts : String)
    (vipIds : Except String (List VipRecord)) :
    Except String Analysis × List Effect :=
  match vipIds with
  | .error e => (.error e, [])
  | .ok l =>
    let (a, alerts) := analyzeCore parseDate now l
    let effs := [Effect.writeFile ("vip_analysis_" ++ sanitizeTs ts ++ ".txt") (reportText ts a alerts)]
      ++ (if a.expired > 0 ∨ a.expiringToday > 0 ∨ a.expiringSoon > 0 then
            [Effect.notify "VIP Status Alert" (statusAlertMsg a) 0xFF8C00]
          else [])
    (.ok a, effs)

/-- Metadata returned by a successful `downloadVipFile`. -/
structure DownloadInfo where
  filename : String
  size : Nat
deriving DecidableEq, Repr

/-- `VIPManager.downloadVipFile`.  `dl` is the outcome of the
`download_vips` request and `vipIds` that of the `get_vip_ids` fallback.
On failure the function sends its own `VIP Download Failed` notification
and rethrows; on success it writes the timestamped backup file and sends a
`VIP File Downloaded` notification. -/
def downloadVipFile (ts : String) (dl : Except String String)
    (vipIds : Except String (List VipRecord)) :
    Except String DownloadInfo × List Effect :=
  let vipData : Except String String :=
    match dl with
    | .ok d => .ok d
    | .error _ =>
      match vipIds with
      | .ok l => .ok (formatVipList ts l)
      | .error e => .error e
  match vipData with
  | .error e => (.error e, [Effect.notify "VIP Download Failed" ("❌ " ++ e) 0xFF0000])
  | .ok d =>
    if d = "" then
      (.error "No VIP file data received",
        [Effect.notify "VIP Download Failed" "❌ No VIP file data received" 0xFF0000])
    else
      let filename := "vip_file_" ++ sanitizeTs ts ++ ".txt"
      (.ok { filename := filename, size := d.length },
        [Effect.writeFile filename d,
          Effect.notify "VIP File Downloaded"
            ("✅ VIP file backed up successfully\n📁 **File:** " ++ filename
              ++ "\n📊 **Size:** " ++ natStr d.length ++ " bytes") 0x00FF00])

/-- One entry of the backup directory: its name, its modification time, and
whether `fs.stat` / `fs.unlink` succeed on it (per-file accessibility). -/
structure FileEntry where
  name : String
  mtime : Int
  statOk : Bool
  unlinkOk : Bool
deriving DecidableEq, Repr

/-- `cutoffDate = new Date(); cutoffDate.setDate(getDate() - keepDays)`,
modelled as exactly `keepDays` days of milliseconds before `now` (a
fixed-offset timezone, no DST jump). -/
def cutoffTime (now : Int) (keepDays : Nat) : Int := now - keepDays * msPerDay

/-- The `for (const file of files)` loop of `cleanupOldBackups`: a file is
deleted (and counted) when its stat succeeds, its mtime is before the
cutoff, and its unlink succeeds; any per-file error skips just that file.
Returns the deleted count and the remaining directory entries. -/
def cleanupLoop (cut : Int) : List FileEntry → Nat × List FileEntry
  | [] => (0, [])
  | f :: rest =>
    let (c, keep) := cleanupLoop cut rest
    if f.statOk then
      if f.mtime < cut then
        if f.unlinkOk then (c + 1, keep) else (c, f :: keep)
      else (c, f :: keep)
    else (c, f :: keep)

/-- `VIPManager.cleanupOldBackups(keepDays)`.  `dir = none` models a
missing/unreadable backup directory (`fs.readdir(...).catch(() => [])`).
Never fails; returns the deleted count and the directory contents left
behind. -/
def cleanupOldBackups (now : Int) (keepDays : Nat)
    (dir : Option (List FileEntry)) : Nat × List FileEntry :=
  match dir with
  | none => (0, [])
  | some files => cleanupLoop (cutoffTime now keepDays) files

/-- Characterisation of deletion used in the cleanup theorems. -/
def shouldDelete (cut : Int) (f : FileEntry) : Bool :=
  f.statOk && decide (f.mtime < cut) && f.unlinkOk

/-- The three sequential steps of `VIPService.performScheduledBackup`. -/
inductive Step where
  | download
  | analyze
  | cleanup
deriving DecidableEq, Repr

/-- `VIPService.performScheduledBackup`: download the VIP file, analyze the
VIPs, clean old backups, in that order inside one `try`; a thrown error
aborts the remaining steps and the `catch` sends a `Backup Failed`
notification; on full success one `Scheduled Backup Complete` summary
notification is sent.  Returns the steps that were executed and the
effects emitted, in order. -/
def performScheduledBackup (parseDate : String → Option Int) (now : Int)
    (ts : String) (dl : Except String String)
    (vipIds : Except String (List VipRecord)) (retentionDays : Nat)
    (dir : Option (List FileEntry)) : List Step × List Effect :=
  let (dres, e1) := downloadVipFile ts dl vipIds
  match dres with
  | .error e =>
    ([Step.download],
      e1 ++ [Effect.notify "Backup Failed" ("❌ Scheduled backup failed: " ++ e) 0xFF0000])
  | .ok _ =>
    let (ares, e2) := analyzeVips parseDate now ts vipIds
    match ares with
    | .error e =>
      ([Step.download, Step.analyze],
        e1 ++ e2 ++ [Effect.notify "Backup Failed" ("❌ Scheduled backup failed: " ++ e) 0xFF0000])
    | .ok a =>
      let (deleted, _) := cleanupOldBackups now retentionDays dir
      ([Step.download, Step.analyze, Step.cleanup],
        e1 ++ e2 ++ [Effect.notify "Scheduled Backup Complete"
          ("✅ **Backup Summary**\n📁 VIP file backed up\n📊 " ++ natStr a.total
            ++ " VIPs analyzed\n🧹 " ++ natStr deleted ++ " old files cleaned") 0x00FF00])

/-- The `criticalIssues` array built by `VIPService.performHealthCheck`. -/
def healthIssues (a : Analysis) : List String :=
  (if a.expiringToday > 0 then ["🚨 " ++ natStr a.expiringToday ++ " VIPs expire TODAY"] else [])
  ++ (if a.expired > 0 then ["❌ " ++ natStr a.expired ++ " VIPs have expired"] else [])
  ++ (if a.expiringSoon > 0 then ["⚠️ " ++ natStr a.expiringSoon ++ " VIPs expire within 7 days"] else [])

/-- `VIPService.performHealthCheck`.  `conn` is the outcome of
`testConnection` (`.error` models `connected: false`).  An unreachable
server or a failed analysis is caught and produces one
`Health Check Failed` notification; otherwise the analysis runs (with its
own effects) and a `VIP Alert` notification is sent when `criticalIssues`
is nonempty. -/
def performHealthCheck (parseDate : String → Option Int) (now : Int)
    (ts : String) (conn : Except String Unit)
    (vipIds : Except String (List VipRecord)) : List Effect :=
  match conn with
  | .error e => [Effect.notify "Health Check Failed" ("❌ VIP health check failed: " ++ e) 0xFF0000]
  | .ok _ =>
    let (ares, e2) := analyzeVips parseDate now ts vipIds
    match ares with
    | .error e =>
      e2 ++ [Effect.notify "Health Check Failed" ("❌ VIP health check failed: " ++ e) 0xFF0000]
    | .ok a =>
      let issues := healthIssues a
      e2 ++ (if issues.length > 0 then
          [Effect.notify "VIP Alert" ("🔔 **VIP Status Alert**\n" ++ String.intercalate "\n" issues) 0xFF8C00]
        else [])

/-- Is this effect a red (`0xFF0000`) failure notification
(`Backup Failed`, `VIP Download Failed`, `Health Check Failed`)? -/
def isFailureNotif : Effect → Bool
  | .notify _ _ c => c == 0xFF0000
  | _ => false

/-- Is this effect an orange (`0xFF8C00`) alert notification
(`VIP Status Alert`, `VIP Alert`)? -/
def isAlertNotif : Effect → Bool
  | .notify _ _ c => c == 0xFF8C00
  | _ => false

/-- Is this effect the `Scheduled Backup Complete` summary notification? -/
def isSummaryNotif : Effect → Bool
  | .notify t _ _ => t == "Scheduled Backup Complete"
  | _ => false

/-- Is this effect any notification at all? -/
def isNotifEff : Effect → Bool
  | .notify _ _ _ => true
  | _ => false

/-- Is this effect a file write? -/
def isWriteEff : Effect → Bool
  | .writeFile _ _ => true
  | _ => false

/-- The failure notifications among a list of effects. -/
def failureNotifs (effs : List Effect) : List Effect := effs.filter isFailureNotif

/-- The alert notifications among a list of effects. -/
def alertNotifs (effs : List Effect) : List Effect := effs.filter isAlertNotif

/-- The `Scheduled Backup Complete` summary notifications among a list of
effects. -/
def summaryNotifs (effs : List Effect) : List Effect := effs.filter isSummaryNotif

/-- All notification effects (of any color) among a list of effects. -/
def allNotifs (effs : List Effect) : List Effect := effs.filter isNotifEff

/-- All file-write effects among a list of effects. -/
def fileWrites (effs : List Effect) : List Effect := effs.filter isWriteEff

/-- The scheduler state of `VIPService`: the `isRunning` flag and the
active/stopped flags of every task ever registered with `cron.schedule`
(tasks are appended in pairs by `start()` and all stopped, but never
deregistered, by `stop()`). -/
structure SchedState where
  isRunning : Bool
  tasks : List Bool
deriving DecidableEq, Repr

/-- The log lines the service emits (only warnings matter to the claims). -/
inductive LogLine where
  | warn (msg : String)
deriving DecidableEq, Repr

/-- `VIPService.start()`.  A second `start` while running is a warning
no-op; invalid cron expressions throw; otherwise two fresh tasks are
registered and started, `isRunning` is set, and a startup notification is
sent. -/
def startService (validBackup validAlert : Bool) (st : SchedState) :
    Except String (SchedState × List LogLine × List Effect) :=
  if st.isRunning then
    .ok (st, [LogLine.warn "Service is already running"], [])
  else if validBackup = false then
    .error "Invalid backup schedule"
  else if validAlert = false then
    .error "Invalid alert schedule"
  else
    .ok ({ isRunning := true, tasks := st.tasks ++ [true, true] }, [],
      [Effect.notify "VIP Service Started" "🚀 **VIP Service Online**" 0x00FF00])

/-- `VIPService.stop()`.  A `stop` while stopped is a warning no-op;
otherwise `cron.getTasks().forEach(task => task.stop())` stops every
registered task and clears `isRunning`. -/
def stopService (st : SchedState) : SchedState × List LogLine :=
  if st.isRunning = false then
    (st, [LogLine.warn "Service is not running"])
  else
    ({ isRunning := false, tasks := st.tasks.map (fun _ => false) }, [])

/-- Number of currently active (started, not stopped) cron tasks. -/
def activeTriggers (st : SchedState) : Nat := (st.tasks.filter id).length

/-- The freshly constructed service: not running, no tasks registered. -/
def initialSchedState : SchedState := { isRunning := false, tasks := [] }

/-! ## Helper lemmas about the analysis step -/

@[simp]
theorem bumpPlatform_total (a : Analysis) (pid : String) :
    (bumpPlatform a pid).total = a.total := by
  unfold bumpPlatform; split <;> rfl

@[simp]
theorem bumpPlatform_permanent (a : Analysis) (pid : String) :
    (bumpPlatform a pid).permanent = a.permanent := by
  unfold bumpPlatform; split <;> rfl

@[simp]
theorem bumpPlatform_temporary (a : Analysis) (pid : String) :
    (bumpPlatform a pid).temporary = a.temporary := by
  unfold bumpPlatform; split <;> rfl

@[simp]
theorem bumpPlatform_expired (a : Analysis) (pid : String) :
    (bumpPlatform a pid).expired = a.expired := by
  unfold bumpPlatform; split <;> rfl

@[simp]
theorem bumpPlatform_expiringSoon (a : Analysis) (pid : String) :
    (bumpPlatform a pid).expiringSoon = a.expiringSoon := by
  unfold bumpPlatform; split <;> rfl

@[simp]
theorem bumpPlatform_expiringToday (a : Analysis) (pid : String) :
    (bumpPlatform a pid).expiringToday = a.expiringToday := by
  unfold bumpPlatform; split <;> rfl

/-- Shorthand for the sum of the three alerting buckets. -/
def bSum (a : Analysis) : Nat := a.expired + a.expiringToday + a.expiringSoon

/-- One analysis step leaves `total` unchanged, increments
`permanent + temporary` by exactly one, and grows the alert-bucket sum by
at most the growth of `temporary`. -/
theorem vipStep_counts (pd : String → Option Int) (now : Int)
    (acc : Analysis × List String) (v : VipRecord) :
    (vipStep pd now acc v).1.total = acc.1.total ∧
    (vipStep pd now acc v).1.permanent + (vipStep pd now acc v).1.temporary
      = acc.1.permanent + acc.1.temporary + 1 ∧
    bSum (vipStep pd now acc v).1 + acc.1.temporary
      ≤ bSum acc.1 + (vipStep pd now acc v).1.temporary := by
  unfold vipStep bSum
  dsimp only
  split
  · simp; omega
  · split
    · simp; omega
    · split
      · simp; omega
      · split_ifs <;> (simp; omega)

/-- The analysis fold preserves the counting invariants, for any starting
accumulator. -/
theorem analyzeFold_invariant (pd : String → Option Int) (now : Int)
    (l : List VipRecord) (acc : Analysis × List String) :
    (l.foldl (vipStep pd now) acc).1.total = acc.1.total ∧
    (l.foldl (vipStep pd now) acc).1.permanent + (l.foldl (vipStep pd now) acc).1.temporary
      = acc.1.permanent + acc.1.temporary + l.length ∧
    (bSum acc.1 ≤ acc.1.temporary →
      bSum (l.foldl (vipStep pd now) acc).1 ≤ (l.foldl (vipStep pd now) acc).1.temporary) := by
  induction l generalizing acc with
  | nil => exact ⟨rfl, rfl, fun h => h⟩
  | cons v rest ih =>
    obtain ⟨ht, hp, hb⟩ := ih (vipStep pd now acc v)
    obtain ⟨st, sp, sb⟩ := vipStep_counts pd now acc v
    refine ⟨by simpa [st] using ht, by simp only [List.foldl_cons, List.length_cons]; omega, fun h => ?_⟩
    · simp only [List.foldl_cons]
      exact hb (by omega)

/-- **C1.** For every VIP list, the analysis result produced by
`analyzeVips` satisfies `permanent + temporary = total` and
`expired + expiringToday + expiringSoon ≤ temporary` (so the three alert
buckets together with the no-alert remainder partition the temporary
count). -/
theorem analyzeVips_invariant (pd : String → Option Int) (now : Int)
    (ts : String) (l : List VipRecord) (a : Analysis) (effs : List Effect)
    (h : analyzeVips pd now ts (.ok l) = (.ok a, effs)) :
    a.permanent + a.temporary = a.total ∧
    a.expired + a.expiringToday + a.expiringSoon ≤ a.temporary := by
  have ha : a = (analyzeCore pd now l).1 := by
    simp only [analyzeVips] at h
    have := congrArg Prod.fst h
    simp only at this
    exact (Except.ok.injEq _ _).mp this.symm
  obtain ⟨ht, hp, hb⟩ := analyzeFold_invariant pd now l (initAnalysis l.length, [])
  subst ha
  unfold analyzeCore
  refine ⟨?_, ?_⟩
  · rw [hp, ht]; simp [initAnalysis]
  · have := hb (by simp [initAnalysis, bSum])
    simpa [bSum] using this

/-- Witness for `analyzeVips_invariant` at a concrete two-record list. -/
theorem analyzeVips_invariant_witness :
    ((analyzeCore (fun _ => some 5) 0
        [⟨"76561198000000001", "alice", none, none⟩,
          ⟨"990000000", "bob", some "soon", none⟩]).1.permanent
      + (analyzeCore (fun _ => some 5) 0
        [⟨"76561198000000001", "alice", none, none⟩,
          ⟨"990000000", "bob", some "soon", none⟩]).1.temporary
      = (analyzeCore (fun _ => some 5) 0
        [⟨"76561198000000001", "alice", none, none⟩,
          ⟨"990000000", "bob", some "soon", none⟩]).1.total) ∧
    ((analyzeCore (fun _ => some 5) 0
        [⟨"76561198000000001", "alice", none, none⟩,
          ⟨"990000000", "bob", some "soon", none⟩]).1.expired
      + (analyzeCore (fun _ => some 5) 0
        [⟨"76561198000000001", "alice", none, none⟩,
          ⟨"990000000", "bob", some "soon", none⟩]).1.expiringToday
      + (analyzeCore (fun _ => some 5) 0
        [⟨"76561198000000001", "alice", none, none⟩,
          ⟨"990000000", "bob", some "soon", none⟩]).1.expiringSoon
      ≤ (analyzeCore (fun _ => some 5) 0
        [⟨"76561198000000001", "alice", none, none⟩,
          ⟨"990000000", "bob", some "soon", none⟩]).1.temporary) :=
  analyzeVips_invariant (fun _ => some 5) 0 "T"
    [⟨"76561198000000001", "alice", none, none⟩, ⟨"990000000", "bob", some "soon", none⟩]
    _ _ rfl

/-! ## C3: platform classification -/

/-- A list starting with a different head admits no prefix starting with
`a`. -/
theorem isPrefixOf_cons_false {a b : Char} {as t : List Char} (h : a ≠ b) :
    (a :: as).isPrefixOf (b :: t) = false := by
  simp [List.isPrefixOf, h]

/-- **C3.** Platform classification is a total function of the identifier
prefix: `"76561198..."` is pc, `"11000..."` and `"76561199..."` are
console, everything else is unknown; in particular the three example
identifiers map to pc, console, and unknown. -/
theorem platformOf_classification :
    (∀ pid : String, jsStartsWith pid "76561198" = true → platformOf pid = .pc) ∧
    (∀ pid : String, jsStartsWith pid "11000" = true ∨ jsStartsWith pid "76561199" = true →
      platformOf pid = .console) ∧
    (∀ pid : String, jsStartsWith pid "76561198" = false → jsStartsWith pid "11000" = false →
      jsStartsWith pid "76561199" = false → platformOf pid = .unknown) ∧
    platformOf "76561198000000001" = .pc ∧
    platformOf "1100000100000001" = .console ∧
    platformOf "990000000" = .unknown := by
  refine ⟨?_, ?_, ?_, by decide, by decide, by decide⟩
  · intro pid h
    simp [platformOf, h]
  · intro pid h
    have hpc : jsStartsWith pid "76561198" = false := by
      rcases h with h | h
      · unfold jsStartsWith at h
        rw [List.isPrefixOf_iff_prefix] at h
        obtain ⟨t, ht⟩ := h
        have hd : "11000".data = ['1', '1', '0', '0', '0'] := rfl
        rw [hd] at ht
        unfold jsStartsWith
        rw [← ht]
        have hd2 : "76561198".data = ['7', '6', '5', '6', '1', '1', '9', '8'] := rfl
        rw [hd2]
        exact isPrefixOf_cons_false (by decide)
      · unfold jsStartsWith at h
        rw [List.isPrefixOf_iff_prefix] at h
        obtain ⟨t, ht⟩ := h
        have hd : "76561199".data = ['7', '6', '5', '6', '1', '1', '9', '9'] := rfl
        rw [hd] at ht
        unfold jsStartsWith
        rw [← ht]
        have hd2 : "76561198".data = ['7', '6', '5', '6', '1', '1', '9', '8'] := rfl
        rw [hd2]
        simp [List.isPrefixOf, List.cons_append]
    rcases h with h | h <;> simp [platformOf, hpc, h]
  · intro pid h1 h2 h3
    simp [platformOf, h1, h2, h3]

/-- Witness for `platformOf_classification`: the pc clause applied at the
example pc identifier. -/
theorem platformOf_classification_witness :
    platformOf "76561198000000001" = .pc :=
  platformOf_classification.1 "76561198000000001" (by decide)

/-! ## C2: expiration classification boundaries -/

/-- **C2 counterexample.** An expiration one millisecond before `now` is
counted `expiringToday`, not `expired`: `Math.ceil(-1 / day)` is zero.
With `now = 0` and an expiration parsing to `-1`, the analysis of a single
temporary record has `expired = 0` and `expiringToday = 1`. -/
theorem expiration_one_ms_before_not_expired :
    (analyzeCore (fun _ => some (-1)) 0
        [⟨"76561198000000001", "n", some "2024-01-01", none⟩]).1.expired = 0 ∧
    (analyzeCore (fun _ => some (-1)) 0
        [⟨"76561198000000001", "n", some "2024-01-01", none⟩]).1.expiringToday = 1 := by
  constructor <;> rfl

/-- **C2 (amended).** For a non-permanent record whose expiration parses to
instant `t`, the analysis classifies it by
`daysUntilExpiry = ⌈(t - now) / 1 day⌉`: negative ⇒ expired, zero ⇒
expiringToday, 1..7 ⇒ expiringSoon, above 7 ⇒ no bucket.  At the
boundaries: an expiration exactly at `now` or one millisecond before `now`
is counted expiringToday; exactly 7 days after `now` is expiringSoon;
8 days after `now` is in no bucket. -/
theorem analyzeVips_expiration_classification (pd : String → Option Int)
    (now t : Int) (pid nm e : String) (desc : Option String)
    (hperm : isPermanentExp (some e) = false) (hpd : pd e = some t) :
    (analyzeCore pd now [⟨pid, nm, some e, desc⟩]).1.expired
        = (if ceilDiv (t - now) msPerDay < 0 then 1 else 0) ∧
    (analyzeCore pd now [⟨pid, nm, some e, desc⟩]).1.expiringToday
        = (if ceilDiv (t - now) msPerDay = 0 then 1 else 0) ∧
    (analyzeCore pd now [⟨pid, nm, some e, desc⟩]).1.expiringSoon
        = (if 1 ≤ ceilDiv (t - now) msPerDay ∧ ceilDiv (t - now) msPerDay ≤ 7 then 1 else 0) ∧
    (t = now → (analyzeCore pd now [⟨pid, nm, some e, desc⟩]).1.expiringToday = 1) ∧
    (t = now - 1 → (analyzeCore pd now [⟨pid, nm, some e, desc⟩]).1.expiringToday = 1 ∧
      (analyzeCore pd now [⟨pid, nm, some e, desc⟩]).1.expired = 0) ∧
    (t = now + 7 * msPerDay → (analyzeCore pd now [⟨pid, nm, some e, desc⟩]).1.expiringSoon = 1) ∧
    (t = now + 8 * msPerDay →
      (analyzeCore pd now [⟨pid, nm, some e, desc⟩]).1.expired = 0 ∧
      (analyzeCore pd now [⟨pid, nm, some e, desc⟩]).1.expiringToday = 0 ∧
      (analyzeCore pd now [⟨pid, nm, some e, desc⟩]).1.expiringSoon = 0) := by
  have key : (analyzeCore pd now [⟨pid, nm, some e, desc⟩]).1.expired
        = (if ceilDiv (t - now) msPerDay < 0 then 1 else 0) ∧
      (analyzeCore pd now [⟨pid, nm, some e, desc⟩]).1.expiringToday
        = (if ceilDiv (t - now) msPerDay = 0 then 1 else 0) ∧
      (analyzeCore pd now [⟨pid, nm, some e, desc⟩]).1.expiringSoon
        = (if 1 ≤ ceilDiv (t - now) msPerDay ∧ ceilDiv (t - now) msPerDay ≤ 7 then 1 else 0) := by
    simp only [analyzeCore, List.foldl_cons, List.foldl_nil]
    unfold vipStep
    dsimp only
    rw [hperm, hpd]
    simp only [Bool.false_eq_true, if_false]
    split_ifs <;> simp_all [initAnalysis] <;> omega
  obtain ⟨k1, k2, k3⟩ := key
  refine ⟨k1, k2, k3, ?_, ?_, ?_, ?_⟩
  · intro ht
    have hv : ceilDiv (t - now) msPerDay = 0 := by
      rw [show t - now = 0 by omega]; decide
    rw [k2, hv]; simp
  · intro ht
    have hv : ceilDiv (t - now) msPerDay = 0 := by
      rw [show t - now = -1 by omega]; decide
    constructor
    · rw [k2, hv]; simp
    · rw [k1, hv]; simp
  · intro ht
    have hv : ceilDiv (t - now) msPerDay = 7 := by
      rw [show t - now = 7 * msPerDay by rw [ht]; ring]; decide
    rw [k3, hv]; simp
  · intro ht
    have hv : ceilDiv (t - now) msPerDay = 8 := by
      rw [show t - now = 8 * msPerDay by rw [ht]; ring]; decide
    refine ⟨?_, ?_, ?_⟩
    · rw [k1, hv]; simp
    · rw [k2, hv]; simp
    · rw [k3, hv]; simp

/-- Witness for `analyzeVips_expiration_classification`: a record expiring
exactly at `now` is counted expiringToday. -/
theorem analyzeVips_expiration_classification_witness :
    (analyzeCore (fun _ => some 0) 0 [⟨"76561198000000001", "n", some "2030-01-01", none⟩]).1.expiringToday = 1 :=
  (analyzeVips_expiration_classification (fun _ => some 0) 0 0
    "76561198000000001" "n" "2030-01-01" none (by decide) rfl).2.2.2.1 rfl

/-! ## C6, C7: the retention sweep -/

/-- The cleanup loop deletes exactly the entries satisfying `shouldDelete`
(stat succeeds, mtime before the cutoff, unlink succeeds) and counts them;
everything else is left in place. -/
theorem cleanupLoop_filter (cut : Int) (files : List FileEntry) :
    cleanupLoop cut files
      = ((files.filter (shouldDelete cut)).length,
          files.filter (fun f => !(shouldDelete cut f))) := by
  induction files with
  | nil => rfl
  | cons f rest ih =>
    simp only [cleanupLoop, ih, List.filter_cons, shouldDelete]
    by_cases hs : f.statOk = true
    · by_cases hm : f.mtime < cut
      · by_cases hu : f.unlinkOk = true
        · simp [hs, hm, hu]
        · simp [hs, hm, hu]
      · simp [hs, hm]
    · simp [hs]

/-- **C6.** `cleanupOldBackups(retentionDays)` deletes exactly the
accessible files whose modification time is older than
`now - retentionDays` days and returns their number; a missing or
unreadable directory is treated as empty (count 0); per-file stat/unlink
errors skip only that file; the operation is total.  With files aged
40, 31, 29 and 1 days and `retentionDays = 30`, exactly the first two are
deleted and the count is 2. -/
theorem cleanupOldBackups_spec :
    (∀ (now : Int) (keepDays : Nat) (dir : Option (List FileEntry)),
      (cleanupOldBackups now keepDays dir).1
        = ((dir.getD []).filter (shouldDelete (cutoffTime now keepDays))).length ∧
      (cleanupOldBackups now keepDays dir).2
        = (dir.getD []).filter (fun f => !(shouldDelete (cutoffTime now keepDays) f))) ∧
    (∀ (now : Int) (keepDays : Nat), cleanupOldBackups now keepDays none = (0, [])) ∧
    cleanupOldBackups 0 30 (some
        [⟨"f40", -(40 * msPerDay), true, true⟩, ⟨"f31", -(31 * msPerDay), true, true⟩,
          ⟨"f29", -(29 * msPerDay), true, true⟩, ⟨"f1", -msPerDay, true, true⟩])
      = (2, [⟨"f29", -(29 * msPerDay), true, true⟩, ⟨"f1", -msPerDay, true, true⟩]) := by
  refine ⟨fun now keepDays dir => ?_, fun now keepDays => rfl, by decide⟩
  cases dir with
  | none => exact ⟨rfl, rfl⟩
  | some files =>
    constructor
    · exact congrArg Prod.fst (cleanupLoop_filter (cutoffTime now keepDays) files)
    · exact congrArg Prod.snd (cleanupLoop_filter (cutoffTime now keepDays) files)

/-- **C7.** The retention sweep is idempotent: running `cleanupOldBackups`
again, at the same instant, on the files the first run left behind deletes
nothing and returns 0. -/
theorem cleanupOldBackups_idempotent (now : Int) (keepDays : Nat)
    (dir : Option (List FileEntry)) :
    (cleanupOldBackups now keepDays
        (some (cleanupOldBackups now keepDays dir).2)).1 = 0 := by
  rcases dir with _ | files
  · rfl
  · simp only [cleanupOldBackups, cleanupLoop_filter, List.filter_filter]
    rw [List.length_eq_zero]
    apply List.filter_eq_nil_iff.mpr
    intro f _
    cases h : shouldDelete (cutoffTime now keepDays) f <;> simp [h]

/-! ## C8: the scheduler state machine -/

/-- **C8.** The scheduler is a two-state machine: `start()` while Running
is a warning no-op (so two consecutive `start()`s leave exactly one pair
of active triggers), `stop()` while Stopped is a warning no-op, and
`stop()` followed by `start()` brings back exactly one active pair of
triggers. -/
theorem scheduler_state_machine :
    (∀ (st : SchedState) (vb va : Bool), st.isRunning = true →
      startService vb va st = .ok (st, [LogLine.warn "Service is already running"], [])) ∧
    (∀ st : SchedState, st.isRunning = false →
      stopService st = (st, [LogLine.warn "Service is not running"])) ∧
    (∀ (st st' : SchedState) (logs : List LogLine) (effs : List Effect),
      st.isRunning = false → startService true true st = .ok (st', logs, effs) →
      st'.isRunning = true ∧ activeTriggers st' = activeTriggers st + 2 ∧
      startService true true st' = .ok (st', [LogLine.warn "Service is already running"], []) ∧
      (stopService st').1.isRunning = false ∧ activeTriggers (stopService st').1 = 0) ∧
    (∃ st1 : SchedState, ∃ logs : List LogLine, ∃ effs : List Effect,
      startService true true initialSchedState = .ok (st1, logs, effs) ∧
      activeTriggers st1 = 2 ∧
      startService true true st1 = .ok (st1, [LogLine.warn "Service is already running"], []) ∧
      (∃ st2 : SchedState, ∃ logs2 : List LogLine, ∃ effs2 : List Effect,
        startService true true (stopService st1).1 = .ok (st2, logs2, effs2) ∧
        activeTriggers st2 = 2)) := by
  refine ⟨?_, ?_, ?_, ?_⟩
  · intro st vb va h
    simp [startService, h]
  · intro st h
    simp [stopService, h]
  · intro st st' logs effs h hstart
    simp only [startService, h, Bool.false_eq_true, if_false, if_true] at hstart
    obtain ⟨h1, _, _⟩ := Prod.mk.injEq .. ▸ (Except.ok.injEq _ _).mp hstart
    subst h1
    refine ⟨rfl, ?_, by simp [startService], rfl, ?_⟩
    · simp [activeTriggers, List.filter_append]
    · simp only [stopService]
      simp [activeTriggers, List.filter_map]
  · exact ⟨⟨true, [true, true]⟩, [], [Effect.notify "VIP Service Started" "🚀 **VIP Service Online**" 0x00FF00],
      rfl, by decide, rfl,
      ⟨⟨true, [false, false, true, true]⟩, [],
        [Effect.notify "VIP Service Started" "🚀 **VIP Service Online**" 0x00FF00],
        rfl, by decide⟩⟩

/-- Witness for `scheduler_state_machine`: starting a running service with
one active pair of triggers is a warning no-op. -/
theorem scheduler_state_machine_witness :
    startService true true ⟨true, [true, true]⟩
      = .ok (⟨true, [true, true]⟩, [LogLine.warn "Service is already running"], []) :=
  scheduler_state_machine.1 ⟨true, [true, true]⟩ true true rfl

/-! ## Effect bookkeeping lemmas -/

@[simp]
theorem failureNotifs_append (a b : List Effect) :
    failureNotifs (a ++ b) = failureNotifs a ++ failureNotifs b :=
  List.filter_append a b

@[simp]
theorem alertNotifs_append (a b : List Effect) :
    alertNotifs (a ++ b) = alertNotifs a ++ alertNotifs b :=
  List.filter_append a b

@[simp]
theorem summaryNotifs_append (a b : List Effect) :
    summaryNotifs (a ++ b) = summaryNotifs a ++ summaryNotifs b :=
  List.filter_append a b

@[simp]
theorem allNotifs_append (a b : List Effect) :
    allNotifs (a ++ b) = allNotifs a ++ allNotifs b :=
  List.filter_append a b

/-- The exact result and effect list of `analyzeVips` on a decoded VIP
list: the analysis from the pure fold, one report-file write, and the
`VIP Status Alert` notification exactly when some alert bucket is
nonzero. -/
theorem analyzeVips_ok (pd : String → Option Int) (now : Int) (ts : String)
    (l : List VipRecord) :
    analyzeVips pd now ts (.ok l)
      = (.ok (analyzeCore pd now l).1,
          Effect.writeFile ("vip_analysis_" ++ sanitizeTs ts ++ ".txt")
              (reportText ts (analyzeCore pd now l).1 (analyzeCore pd now l).2)
            :: (if (analyzeCore pd now l).1.expired > 0 ∨ (analyzeCore pd now l).1.expiringToday > 0
                  ∨ (analyzeCore pd now l).1.expiringSoon > 0 then
                  [Effect.notify "VIP Status Alert" (statusAlertMsg (analyzeCore pd now l).1) 0xFF8C00]
                else [])) := by
  rcases h : analyzeCore pd now l with ⟨a, alerts⟩
  simp [analyzeVips, h]

/-- Notification bookkeeping for `analyzeVips`: it sends no failure and no
summary notification, and on a failed request it emits no effect at all. -/
theorem analyzeVips_notif_counts (pd : String → Option Int) (now : Int)
    (ts : String) (vipIds : Except String (List VipRecord)) :
    (failureNotifs (analyzeVips pd now ts vipIds).2).length = 0 ∧
    (summaryNotifs (analyzeVips pd now ts vipIds).2).length = 0 ∧
    (∀ e, (analyzeVips pd now ts vipIds).1 = .error e → (analyzeVips pd now ts vipIds).2 = []) := by
  cases vipIds with
  | error e => exact ⟨rfl, rfl, fun _ _ => rfl⟩
  | ok l =>
    rw [analyzeVips_ok]
    refine ⟨?_, ?_, ?_⟩
    · split_ifs <;> simp [failureNotifs, isFailureNotif, List.filter]
    · split_ifs <;> simp [summaryNotifs, isSummaryNotif, List.filter]
    · intro e he
      simp at he

/-- **C10 counterexample.** `analyzeVips` is not effect-free: even on an
empty VIP list it writes the analysis report file itself (and on lists
with alerting records it also sends the notification itself), so the
analysis is not free of persistence side effects left to the caller. -/
theorem analyzeVips_has_side_effects :
    (analyzeVips (fun _ => none) 0 "T" (Except.ok [])).2 ≠ [] := by
  rw [analyzeVips_ok]
  simp

/-- **C10 (amended).** The analysis *result* is a deterministic pure
function of the VIP list and the current time (independent of everything
else, including the report timestamp), but `analyzeVips` itself performs
the persistence and notification: its effect list contains exactly one
file write (the report) and exactly one alert notification when any of
the expired / expiring-today / expiring-soon buckets is nonzero (none
otherwise). -/
theorem analyzeVips_pure_result_and_effects (pd : String → Option Int)
    (now : Int) (ts ts' : String) (l : List VipRecord) :
    (analyzeVips pd now ts (.ok l)).1 = .ok (analyzeCore pd now l).1 ∧
    (analyzeVips pd now ts (.ok l)).1 = (analyzeVips pd now ts' (.ok l)).1 ∧
    (fileWrites (analyzeVips pd now ts (.ok l)).2).length = 1 ∧
    (allNotifs (analyzeVips pd now ts (.ok l)).2).length
      = (if (analyzeCore pd now l).1.expired > 0 ∨ (analyzeCore pd now l).1.expiringToday > 0
            ∨ (analyzeCore pd now l).1.expiringSoon > 0 then 1 else 0) := by
  rw [analyzeVips_ok, analyzeVips_ok]
  refine ⟨rfl, rfl, ?_, ?_⟩
  · split_ifs <;> simp [fileWrites, isWriteEff, List.filter]
  · split_ifs <;> simp [allNotifs, isNotifEff, List.filter]

/-! ## C4: the scheduled backup run -/

/-- Notification bookkeeping for `downloadVipFile`: it sends no summary and
no alert notification, and exactly one failure notification when (and only
when) it fails. -/
theorem downloadVipFile_notif_counts (ts : String) (dl : Except String String)
    (vipIds : Except String (List VipRecord)) :
    (summaryNotifs (downloadVipFile ts dl vipIds).2).length = 0 ∧
    (alertNotifs (downloadVipFile ts dl vipIds).2).length = 0 ∧
    (failureNotifs (downloadVipFile ts dl vipIds).2).length
      = (match (downloadVipFile ts dl vipIds).1 with
          | .error _ => 1
          | .ok _ => 0) := by
  cases dl with
  | ok d =>
    by_cases hd : d = "" <;>
      simp [downloadVipFile, hd, summaryNotifs, alertNotifs, failureNotifs,
        isSummaryNotif, isAlertNotif, isFailureNotif, List.filter]
  | error e =>
    cases vipIds with
    | ok l =>
      by_cases hf : formatVipList ts l = "" <;>
        simp [downloadVipFile, hf, summaryNotifs, alertNotifs, failureNotifs,
          isSummaryNotif, isAlertNotif, isFailureNotif, List.filter]
    | error e2 =>
      simp [downloadVipFile, summaryNotifs, alertNotifs, failureNotifs,
        isSummaryNotif, isAlertNotif, isFailureNotif, List.filter]

/-- **C4 counterexample.** When the download step itself fails (both the
`download_vips` endpoint and the `get_vip_ids` fallback), the run emits
*two* failure notifications, not one: `downloadVipFile`'s own
`VIP Download Failed` and the run-level `Backup Failed`. -/
theorem backup_download_failure_two_notifications :
    (failureNotifs (performScheduledBackup (fun _ => none) 0 "T"
        (.error "boom") (.error "boom") 30 none).2).length = 2 := by
  rfl

/-- **C4 (amended).** A scheduled-backup run executes download → analyze →
cleanup in that fixed order; a download failure skips the remaining steps
and emits exactly two failure notifications (the download step's own plus
the run-level one) and no summary; an analyze failure skips cleanup and
emits exactly one failure notification and no summary; a fully successful
run executes all three steps and emits exactly one summary notification
(combining file-backup confirmation, the VIP total, and the deleted-file
count) and no failure notification. -/
theorem performScheduledBackup_spec (pd : String → Option Int) (now : Int)
    (ts : String) (dl : Except String String)
    (vipIds : Except String (List VipRecord)) (retentionDays : Nat)
    (dir : Option (List FileEntry)) :
    ((performScheduledBackup pd now ts dl vipIds retentionDays dir).1 = [Step.download] ∨
      (performScheduledBackup pd now ts dl vipIds retentionDays dir).1 = [Step.download, Step.analyze] ∨
      (performScheduledBackup pd now ts dl vipIds retentionDays dir).1
        = [Step.download, Step.analyze, Step.cleanup]) ∧
    (∀ e, (downloadVipFile ts dl vipIds).1 = .error e →
      (performScheduledBackup pd now ts dl vipIds retentionDays dir).1 = [Step.download] ∧
      (failureNotifs (performScheduledBackup pd now ts dl vipIds retentionDays dir).2).length = 2 ∧
      (summaryNotifs (performScheduledBackup pd now ts dl vipIds retentionDays dir).2).length = 0) ∧
    (∀ i e, (downloadVipFile ts dl vipIds).1 = .ok i →
      (analyzeVips pd now ts vipIds).1 = .error e →
      (performScheduledBackup pd now ts dl vipIds retentionDays dir).1 = [Step.download, Step.analyze] ∧
      (failureNotifs (performScheduledBackup pd now ts dl vipIds retentionDays dir).2).length = 1 ∧
      (summaryNotifs (performScheduledBackup pd now ts dl vipIds retentionDays dir).2).length = 0) ∧
    (∀ i a, (downloadVipFile ts dl vipIds).1 = .ok i →
      (analyzeVips pd now ts vipIds).1 = .ok a →
      (performScheduledBackup pd now ts dl vipIds retentionDays dir).1
        = [Step.download, Step.analyze, Step.cleanup] ∧
      (summaryNotifs (performScheduledBackup pd now ts dl vipIds retentionDays dir).2).length = 1 ∧
      (failureNotifs (performScheduledBackup pd now ts dl vipIds retentionDays dir).2).length = 0) := by
  obtain ⟨hdS, hdA, hdF⟩ := downloadVipFile_notif_counts ts dl vipIds
  obtain ⟨haF, haS, haE⟩ := analyzeVips_notif_counts pd now ts vipIds
  rcases hD : downloadVipFile ts dl vipIds with ⟨dres, e1⟩
  rcases hA : analyzeVips pd now ts vipIds with ⟨ares, e2⟩
  rw [hD] at hdS hdA hdF
  rw [hA] at haF haS haE
  simp only [performScheduledBackup, hD, hA]
  cases dres with
  | error e =>
    refine ⟨Or.inl rfl, fun e2 _ => ⟨rfl, ?_, ?_⟩, fun i e2 hok => by simp at hok, fun i a hok => by simp at hok⟩
    · simp only [failureNotifs_append, List.length_append]
      simp only [failureNotifs] at hdF ⊢
      simp [hdF, failureNotifs, isFailureNotif, List.filter]
    · simp only [summaryNotifs_append, List.length_append]
      simp only [summaryNotifs] at hdS ⊢
      simp [hdS, summaryNotifs, isSummaryNotif, List.filter]
  | ok i0 =>
    cases ares with
    | error e =>
      refine ⟨Or.inr (Or.inl rfl), fun e2 hbad => by simp at hbad,
        fun i e2 _ _ => ⟨rfl, ?_, ?_⟩, fun i a _ hbad => by simp at hbad⟩
      · simp only [failureNotifs_append, List.length_append]
        simp only [failureNotifs] at hdF haF ⊢
        simp [hdF, haF, failureNotifs, isFailureNotif, List.filter]
      · simp only [summaryNotifs_append, List.length_append]
        simp only [summaryNotifs] at hdS haS ⊢
        simp [hdS, haS, summaryNotifs, isSummaryNotif, List.filter]
    | ok a0 =>
      refine ⟨Or.inr (Or.inr rfl), fun e2 hbad => by simp at hbad,
        fun i e2 _ hbad => by simp at hbad, fun i a _ _ => ⟨rfl, ?_, ?_⟩⟩
      · simp only [summaryNotifs_append, List.length_append]
        simp only [summaryNotifs] at hdS haS ⊢
        simp [hdS, haS, summaryNotifs, isSummaryNotif, List.filter]
      · simp only [failureNotifs_append, List.length_append]
        simp only [failureNotifs] at hdF haF ⊢
        simp [hdF, haF, failureNotifs, isFailureNotif, List.filter]

/-- Witness for `performScheduledBackup_spec`: a fully successful run on
concrete inputs executes all three steps and emits exactly one summary and
no failure notification. -/
theorem performScheduledBackup_spec_witness :
    (performScheduledBackup (fun _ => none) 0 "T" (.ok "x") (.ok []) 30 none).1
      = [Step.download, Step.analyze, Step.cleanup] ∧
    (summaryNotifs (performScheduledBackup (fun _ => none) 0 "T" (.ok "x") (.ok []) 30 none).2).length = 1 ∧
    (failureNotifs (performScheduledBackup (fun _ => none) 0 "T" (.ok "x") (.ok []) 30 none).2).length = 0 :=
  (performScheduledBackup_spec (fun _ => none) 0 "T" (.ok "x") (.ok []) 30 none).2.2.2
    ⟨"vip_file_T.txt", 1⟩ (initAnalysis 0) rfl rfl

/-! ## C5: the health check run -/

/-- `criticalIssues` contains the line for each nonzero bucket and nothing
else: its length is the number of nonzero buckets. -/
theorem healthIssues_spec (a : Analysis) :
    (a.expiringToday > 0 → ("🚨 " ++ natStr a.expiringToday ++ " VIPs expire TODAY") ∈ healthIssues a) ∧
    (a.expired > 0 → ("❌ " ++ natStr a.expired ++ " VIPs have expired") ∈ healthIssues a) ∧
    (a.expiringSoon > 0 → ("⚠️ " ++ natStr a.expiringSoon ++ " VIPs expire within 7 days") ∈ healthIssues a) ∧
    (healthIssues a).length
      = (if a.expiringToday > 0 then 1 else 0) + (if a.expired > 0 then 1 else 0)
        + (if a.expiringSoon > 0 then 1 else 0) := by
  unfold healthIssues
  split_ifs <;> simp_all

/-- **C5 counterexample.** When the analysis finds an issue, a health-check
run emits *two* alert notifications, not one: `analyzeVips` itself sends
`VIP Status Alert`, and `performHealthCheck` then sends `VIP Alert`.  With
one expired record the run's alert-notification count is 2. -/
theorem health_check_two_alert_notifications :
    (alertNotifs (performHealthCheck (fun _ => some (-2 * msPerDay)) 0 "T"
        (.ok ()) (.ok [⟨"x", "n", some "e", none⟩]))).length = 2 := by
  rfl

/-- **C5 (amended).** A health-check run first tests connectivity and, if
unreachable, emits exactly the failure notification; if the analysis
request fails it likewise emits exactly the failure notification; if the
analysis succeeds and no bucket is nonzero it emits no notification at
all; if some bucket is nonzero it emits exactly two alert notifications —
the analyzer's `VIP Status Alert` and the health check's consolidated
`VIP Alert`, the latter listing exactly the nonzero buckets. -/
theorem performHealthCheck_spec (pd : String → Option Int) (now : Int)
    (ts : String) (vipIds : Except String (List VipRecord)) :
    (∀ e, performHealthCheck pd now ts (.error e) vipIds
      = [Effect.notify "Health Check Failed" ("❌ VIP health check failed: " ++ e) 0xFF0000]) ∧
    (∀ e, (analyzeVips pd now ts vipIds).1 = .error e →
      performHealthCheck pd now ts (.ok ()) vipIds
        = [Effect.notify "Health Check Failed" ("❌ VIP health check failed: " ++ e) 0xFF0000]) ∧
    (∀ a, (analyzeVips pd now ts vipIds).1 = .ok a →
      ((a.expired = 0 ∧ a.expiringToday = 0 ∧ a.expiringSoon = 0) →
        allNotifs (performHealthCheck pd now ts (.ok ()) vipIds) = []) ∧
      ((a.expired > 0 ∨ a.expiringToday > 0 ∨ a.expiringSoon > 0) →
        (alertNotifs (performHealthCheck pd now ts (.ok ()) vipIds)).length = 2 ∧
        (allNotifs (performHealthCheck pd now ts (.ok ()) vipIds)).length = 2 ∧
        (failureNotifs (performHealthCheck pd now ts (.ok ()) vipIds)).length = 0 ∧
        Effect.notify "VIP Alert"
            ("🔔 **VIP Status Alert**\n" ++ String.intercalate "\n" (healthIssues a)) 0xFF8C00
          ∈ performHealthCheck pd now ts (.ok ()) vipIds ∧
        (a.expiringToday > 0 → ("🚨 " ++ natStr a.expiringToday ++ " VIPs expire TODAY") ∈ healthIssues a) ∧
        (a.expired > 0 → ("❌ " ++ natStr a.expired ++ " VIPs have expired") ∈ healthIssues a) ∧
        (a.expiringSoon > 0 → ("⚠️ " ++ natStr a.expiringSoon ++ " VIPs expire within 7 days") ∈ healthIssues a) ∧
        (healthIssues a).length
          = (if a.expiringToday > 0 then 1 else 0) + (if a.expired > 0 then 1 else 0)
            + (if a.expiringSoon > 0 then 1 else 0))) := by
  refine ⟨fun e => rfl, ?_, ?_⟩
  · cases vipIds with
    | error e0 =>
      intro e h
      have he : e0 = e := by simpa [analyzeVips] using h
      subst he
      rfl
    | ok l =>
      intro e h
      rw [analyzeVips_ok] at h
      simp at h
  · cases vipIds with
    | error e0 =>
      intro a h
      simp [analyzeVips] at h
    | ok l =>
      intro a h
      rw [analyzeVips_ok] at h
      simp only [Except.ok.injEq] at h
      subst h
      obtain ⟨hm1, hm2, hm3, hlen⟩ := healthIssues_spec (analyzeCore pd now l).1
      constructor
      · intro hz
        simp only [performHealthCheck, analyzeVips_ok]
        rw [if_neg (by omega)]
        have hiss : healthIssues (analyzeCore pd now l).1 = [] := by
          rw [← List.length_eq_zero, hlen]
          simp [hz.1, hz.2.1, hz.2.2]
        rw [hiss]
        simp [allNotifs, isNotifEff, List.filter]
      · intro hnz
        simp only [performHealthCheck, analyzeVips_ok]
        rw [if_pos (by omega)]
        have hpos : (healthIssues (analyzeCore pd now l).1).length > 0 := by
          rw [hlen]
          rcases hnz with h | h | h <;> (split_ifs <;> omega)
        rw [if_pos hpos]
        refine ⟨?_, ?_, ?_, ?_, hm1, hm2, hm3, hlen⟩
        · simp [alertNotifs, isAlertNotif, List.filter]
        · simp [allNotifs, isNotifEff, List.filter]
        · simp [failureNotifs, isFailureNotif, List.filter]
        · simp

/-- Witness for `performHealthCheck_spec`: with an unreachable server the
run emits exactly the failure notification. -/
theorem performHealthCheck_spec_witness :
    performHealthCheck (fun _ => none) 0 "T" (.error "ECONNREFUSED") (.ok [])
      = [Effect.notify "Health Check Failed" "❌ VIP health check failed: ECONNREFUSED" 0xFF0000] :=
  (performHealthCheck_spec (fun _ => none) 0 "T" (.ok [])).1 "ECONNREFUSED"

/-! ## C9: the fallback formatter round trip -/

/-- Split a character list at every occurrence of `c` (the usual
line-splitting on `'\n'`). -/
def splitChar (c : Char) : List Char → List (List Char)
  | [] => [[]]
  | x :: xs =>
    if x = c then [] :: splitChar c xs
    else
      match splitChar c xs with
      | [] => [[x]]
      | y :: ys => (x :: y) :: ys

/-- Modelled from the spec: a generated line holds a VIP record exactly
when it is nonempty and not a `#` header comment. -/
def keepLine (l : List Char) : Bool := !l.isEmpty && !(l.head? == some '#')

/-- Modelled from the spec: the player ID of a generated record line
`<playerId> # ...` is everything before the ` # ` separator. -/
def parsePid (l : List Char) : List Char :=
  (l.takeWhile (fun c => c != '#')).dropLast

/-- Modelled from the spec: a generated record line denotes a permanent
grant exactly when its parenthesised status reads `(permanent)` (the line
format is `<playerId> # <name> (<expiration-or-"permanent">)[ - <description>]`). -/
def parsePermanent (l : List Char) : Bool :=
  ((l.dropWhile (fun c => c != '(')).take 11) == "(permanent)".data

/-- Modelled from the spec: re-parse the player IDs and permanence flags
from the text produced by the fallback formatter.  The repository itself
has no parser for this format; this definition follows the spec's format
description line by line. -/
def specParseVipLines (s : String) : List (List Char × Bool) :=
  ((splitChar '\n' s.data).filter keepLine).map (fun l => (parsePid l, parsePermanent l))

/-- `takeWhile` walks through a prefix whose elements all satisfy the
predicate. -/
theorem takeWhile_append_all {p : Char → Bool} {a b : List Char}
    (h : ∀ x ∈ a, p x = true) :
    (a ++ b).takeWhile p = a ++ b.takeWhile p := by
  induction a with
  | nil => simp
  | cons x xs ih =>
    simp only [List.cons_append, List.takeWhile_cons, h x (by simp), if_true]
    rw [ih (fun y hy => h y (by simp [hy]))]

/-- `dropWhile` discards a prefix whose elements all satisfy the
predicate. -/
theorem dropWhile_append_all {p : Char → Bool} {a b : List Char}
    (h : ∀ x ∈ a, p x = true) :
    (a ++ b).dropWhile p = b.dropWhile p := by
  induction a with
  | nil => simp
  | cons x xs ih =>
    simp only [List.cons_append, List.dropWhile_cons, h x (by simp), if_true]
    exact ih (fun y hy => h y (by simp [hy]))

/-- Splitting at a separator that does not occur in the first chunk peels
off exactly that chunk. -/
theorem splitChar_sep (c : Char) (a b : List Char) (h : c ∉ a) :
    splitChar c (a ++ c :: b) = a :: splitChar c b := by
  induction a with
  | nil =>
    simp [splitChar]
  | cons x xs ih =>
    have hx : x ≠ c := fun hxc => h (by simp [hxc])
    have hxs : c ∉ xs := fun hm => h (by simp [hm])
    simp only [List.cons_append, splitChar, hx, if_false, List.append_eq]
    rw [ih hxs]

/-- Splitting a flattened list of `c`-terminated lines recovers the lines
(plus the trailing empty chunk), provided no line contains `c`. -/
theorem splitChar_lines (c : Char) (L : List (List Char))
    (h : ∀ l ∈ L, c ∉ l) :
    splitChar c (L.map (fun l => l ++ [c])).flatten = L ++ [[]] := by
  induction L with
  | nil => rfl
  | cons l ls ih =>
    simp only [List.map_cons, List.flatten_cons, List.append_assoc, List.singleton_append]
    rw [splitChar_sep c l _ (h l (by simp))]
    rw [ih (fun x hx => h x (by simp [hx]))]
    rfl

/-- Every character pushed by `Nat.toDigitsCore` in base 10 onto a
digit-only accumulator is a decimal digit. -/
theorem toDigitsCore_digits (fuel : Nat) :
    ∀ (n : Nat) (ds : List Char), (∀ c ∈ ds, c.isDigit = true) →
      ∀ c ∈ Nat.toDigitsCore 10 fuel n ds, c.isDigit = true := by
  have key : ∀ m, m < 10 → (Nat.digitChar m).isDigit = true := by decide
  induction fuel with
  | zero =>
    intro n ds hds
    simpa [Nat.toDigitsCore] using hds
  | succ fuel ih =>
    intro n ds hds
    have hd : (Nat.digitChar (n % 10)).isDigit = true := key _ (Nat.mod_lt _ (by decide))
    simp only [Nat.toDigitsCore]
    split
    · intro c hc
      rcases List.mem_cons.mp hc with rfl | h
      · exact hd
      · exact hds c h
    · exact ih (n / 10) _ (fun c hc => by
        rcases List.mem_cons.mp hc with rfl | h
        · exact hd
        · exact hds c h)

/-- Every character produced by `natDigits` is a decimal digit. -/
theorem natDigits_digits (n : Nat) : ∀ c ∈ natDigits n, c.isDigit = true :=
  toDigitsCore_digits (n + 1) n [] (by simp)

/-- A decimal digit is none of the characters the parser keys on. -/
theorem digit_ne (c : Char) (h : c.isDigit = true) :
    c ≠ '\n' ∧ c ≠ '#' ∧ c ≠ '(' := by
  refine ⟨?_, ?_, ?_⟩ <;> (rintro rfl; exact absurd h (by decide))

/-- Structure of a generated record line: the player ID, the ` # `
separator, the name, then a tail that starts the parenthesised status
(`(permanent)` for permanent grants, `(expires: ...` otherwise). -/
theorem vipLine_decomp (r : VipRecord)
    (hexpNl : ∀ e, r.expiration = some e → '\n' ∉ e.data)
    (hdescNl : ∀ d2, r.description = some d2 → '\n' ∉ d2.data) :
    ∃ tail : List Char,
      (vipLine r).data = r.player_id.data ++ ' ' :: '#' :: ' ' :: (r.name.data ++ tail) ∧
      '\n' ∉ tail ∧
      ((isPermanentExp r.expiration = true ∧
          ∃ rest, tail = ' ' :: '(' :: ("permanent)".data ++ rest)) ∨
        (isPermanentExp r.expiration = false ∧
          ∃ Z, tail = ' ' :: '(' :: 'e' :: Z)) := by
  have hdesc : ∃ dd : List Char,
      (match r.description with
        | some d2 => if d2 ≠ "" then " - " ++ d2 else ""
        | none => "").data = dd ∧ '\n' ∉ dd := by
    rcases hD : r.description with _ | d2
    · exact ⟨[], rfl, by simp⟩
    · by_cases hd2 : d2 ≠ ""
      · refine ⟨" - ".data ++ d2.data, by simp [hd2, String.data_append], ?_⟩
        simp only [List.mem_append]
        rintro (h | h)
        · exact absurd h (by decide)
        · exact hdescNl d2 hD h
      · exact ⟨[], by simp [hd2], by simp⟩
  obtain ⟨dd, hdd, hddNl⟩ := hdesc
  rcases hE : r.expiration with _ | e
  · refine ⟨" (permanent)".data ++ dd, ?_, ?_, Or.inl ⟨by simp [isPermanentExp, hE], dd, ?_⟩⟩
    · simp only [vipLine, hE, String.data_append, hdd]
      simp [List.append_assoc]
    · simp only [List.mem_append]
      rintro (h | h)
      · exact absurd h (by decide)
      · exact hddNl h
    · rfl
  · by_cases he : e ≠ "" ∧ e ≠ "None"
    · refine ⟨" (expires: ".data ++ (e.data ++ ')' :: dd), ?_, ?_, Or.inr ⟨?_, ?_⟩⟩
      · simp only [vipLine, hE, String.data_append, hdd]
        rw [if_pos he]
        simp [String.data_append, List.append_assoc]
      · simp only [List.mem_append, List.mem_cons]
        rintro (h | h | h | h)
        · exact absurd h (by decide)
        · exact hexpNl e hE h
        · exact absurd h (by decide)
        · exact hddNl h
      · simp only [isPermanentExp, hE]
        have h1 : (e == "") = false := beq_eq_false_iff_ne.mpr he.1
        have h2 : (e == "None") = false := beq_eq_false_iff_ne.mpr he.2
        simp [h1, h2]
      · exact ⟨"xpires: ".data ++ (e.data ++ ')' :: dd), rfl⟩
    · refine ⟨" (permanent)".data ++ dd, ?_, ?_, Or.inl ⟨?_, dd, ?_⟩⟩
      · simp only [vipLine, hE, he, if_false, String.data_append, hdd]
        simp [List.append_assoc]
      · simp only [List.mem_append]
        rintro (h | h)
        · exact absurd h (by decide)
        · exact hddNl h
      · simp only [isPermanentExp, hE]
        rcases not_and_or.mp he with h | h
        · simp [not_not.mp h]
        · simp [not_not.mp h]
      · rfl

/-- A generated record line survives the header filter, contains no
newline, and parses back to the record's player ID and permanence flag. -/
theorem vipLine_props (r : VipRecord)
    (hpid0 : r.player_id.data ≠ [])
    (hpidD : ∀ c ∈ r.player_id.data, c.isDigit = true)
    (hnameP : '(' ∉ r.name.data)
    (hnameNl : '\n' ∉ r.name.data)
    (hexpNl : ∀ e, r.expiration = some e → '\n' ∉ e.data)
    (hdescNl : ∀ d2, r.description = some d2 → '\n' ∉ d2.data) :
    '\n' ∉ (vipLine r).data ∧
    keepLine (vipLine r).data = true ∧
    parsePid (vipLine r).data = r.player_id.data ∧
    parsePermanent (vipLine r).data = isPermanentExp r.expiration := by
  obtain ⟨tail, hdata, htailNl, hshape⟩ := vipLine_decomp r hexpNl hdescNl
  refine ⟨?_, ?_, ?_, ?_⟩
  · rw [hdata]
    simp only [List.mem_append, List.mem_cons]
    rintro (h | h | h | h | h | h)
    · exact absurd rfl (digit_ne _ (hpidD _ h)).1
    · exact absurd h (by decide)
    · exact absurd h (by decide)
    · exact absurd h (by decide)
    · exact hnameNl h
    · exact htailNl h
  · rw [hdata]
    rcases hq : r.player_id.data with _ | ⟨c, cs⟩
    · exact absurd hq hpid0
    · have hc : (c == '#') = false :=
        beq_eq_false_iff_ne.mpr (digit_ne c (hpidD c (by simp [hq]))).2.1
      simp [keepLine, hc]
  · rw [hdata]
    unfold parsePid
    rw [takeWhile_append_all (fun c hc => by
      simp only [bne_iff_ne, ne_eq]
      exact (digit_ne c (hpidD c hc)).2.1)]
    rw [show List.takeWhile (fun c => c != '#') (' ' :: '#' :: ' ' :: (r.name.data ++ tail))
        = [' '] from rfl]
    exact List.dropLast_concat
  · have hassoc : r.player_id.data ++ ' ' :: '#' :: ' ' :: (r.name.data ++ tail)
        = (r.player_id.data ++ ' ' :: '#' :: ' ' :: r.name.data) ++ tail := by
      simp [List.cons_append, List.append_assoc]
    rw [hdata, hassoc]
    unfold parsePermanent
    rw [dropWhile_append_all (fun c hc => by
      simp only [bne_iff_ne, ne_eq]
      rcases List.mem_append.mp hc with h | h
      · exact (digit_ne c (hpidD c h)).2.2
      · rcases List.mem_cons.mp h with h' | h'
        · subst h'; decide
        · rcases List.mem_cons.mp h' with h2 | h2
          · subst h2; decide
          · rcases List.mem_cons.mp h2 with h3 | h3
            · subst h3; decide
            · exact fun hcp => hnameP (hcp ▸ h3))]
    rcases hshape with ⟨hperm, rest, htl⟩ | ⟨hperm, Z, htl⟩
    · rw [htl, hperm]
      rw [show List.dropWhile (fun c => c != '(') (' ' :: '(' :: ("permanent)".data ++ rest))
          = '(' :: ("permanent)".data ++ rest) from rfl]
      rw [show ('(' :: ("permanent)".data ++ rest)) = "(permanent)".data ++ rest from rfl]
      rw [show (11 : Nat) = ("(permanent)".data).length from rfl, List.take_left]
      exact beq_self_eq_true _
    · rw [htl, hperm]
      rfl

/-- The record-appending fold of `formatVipList`, at the character level. -/
theorem formatFold_data (l : List VipRecord) (acc : String) :
    (l.foldl (fun acc vip => acc ++ vipLine vip ++ "\n") acc).data
      = acc.data ++ (l.map (fun r => (vipLine r).data ++ ['\n'])).flatten := by
  induction l generalizing acc with
  | nil => simp
  | cons v rest ih =>
    rw [List.foldl_cons, ih]
    simp [String.data_append, List.append_assoc, show "\n".data = ['\n'] from rfl]

/-- The full character-level layout of `formatVipList`: three header
lines, a blank line, then the newline-terminated record lines. -/
theorem formatVipList_data (ts : String) (l : List VipRecord) :
    (formatVipList ts l).data
      = ("# VIP File Generated ".data ++ ts.data) ++ '\n'
        :: (("# Total VIPs: ".data ++ natDigits l.length) ++ '\n'
        :: ("# Format: STEAM_ID_64 # Player_Name (expiration)".data ++ '\n'
        :: '\n' :: (l.map (fun r => (vipLine r).data ++ ['\n'])).flatten)) := by
  unfold formatVipList
  dsimp only
  rw [formatFold_data]
  have h3 : "# Format: STEAM_ID_64 # Player_Name (expiration)\n\n".data
      = "# Format: STEAM_ID_64 # Player_Name (expiration)".data ++ ['\n', '\n'] := rfl
  simp [String.data_append, h3, natStr, show "\n".data = ['\n'] from rfl, List.append_assoc]

/-- **C9 counterexample.**  The fallback format is ambiguous: a permanent
record named `"n (expires: 5)"` and a temporary record named `"n"` whose
expiration string is `"5) (permanent"` produce the *same* formatted text,
so no re-parse can recover the expiration-versus-permanent status of
every VIP list; moreover a name containing a newline and a ` # ` fragment
makes the spec's line-based re-parse see a second, spurious player ID. -/
theorem formatVipList_ambiguous :
    formatVipList "T" [⟨"1", "n (expires: 5)", none, none⟩]
      = formatVipList "T" [⟨"1", "n", some "5) (permanent", none⟩] ∧
    isPermanentExp (VipRecord.expiration ⟨"1", "n (expires: 5)", none, none⟩) = true ∧
    isPermanentExp (VipRecord.expiration ⟨"1", "n", some "5) (permanent", none⟩) = false ∧
    specParseVipLines (formatVipList "T" [⟨"1", "n\n2 # x (permanent)", some "2030", none⟩])
      ≠ [("1".data, false)] := by
  refine ⟨by decide, rfl, rfl, by decide⟩

/-- **C9 (amended).** For every VIP list whose player IDs are nonempty
digit strings and whose names contain neither a newline nor a parenthesis,
and whose expiration and description strings contain no newline (and a
newline-free generation timestamp), re-parsing the text produced by the
fallback formatter recovers, in order, each record's player ID and its
permanent-versus-temporary status. -/
theorem formatVipList_roundtrip (ts : String) (l : List VipRecord)
    (hts : '\n' ∉ ts.data)
    (hpid : ∀ r ∈ l, r.player_id.data ≠ [] ∧ ∀ c ∈ r.player_id.data, c.isDigit = true)
    (hname : ∀ r ∈ l, '\n' ∉ r.name.data ∧ '(' ∉ r.name.data)
    (hexp : ∀ r ∈ l, ∀ e, r.expiration = some e → '\n' ∉ e.data)
    (hdesc : ∀ r ∈ l, ∀ d2, r.description = some d2 → '\n' ∉ d2.data) :
    specParseVipLines (formatVipList ts l)
      = l.map (fun r => (r.player_id.data, isPermanentExp r.expiration)) := by
  have hlines : ∀ r ∈ l,
      '\n' ∉ (vipLine r).data ∧
      keepLine (vipLine r).data = true ∧
      parsePid (vipLine r).data = r.player_id.data ∧
      parsePermanent (vipLine r).data = isPermanentExp r.expiration := fun r hr =>
    vipLine_props r (hpid r hr).1 (hpid r hr).2 (hname r hr).2 (hname r hr).1
      (hexp r hr) (hdesc r hr)
  unfold specParseVipLines
  rw [formatVipList_data]
  rw [splitChar_sep '\n' _ _ (by
    simp only [List.mem_append]
    rintro (h | h)
    · exact absurd h (by decide)
    · exact hts h)]
  rw [splitChar_sep '\n' _ _ (by
    simp only [List.mem_append]
    rintro (h | h)
    · exact absurd h (by decide)
    · exact absurd rfl (digit_ne _ (natDigits_digits _ _ h)).1)]
  rw [splitChar_sep '\n' _ _ (by decide)]
  rw [show splitChar '\n' ('\n' :: (l.map (fun r => (vipLine r).data ++ ['\n'])).flatten)
      = [] :: splitChar '\n' (l.map (fun r => (vipLine r).data ++ ['\n'])).flatten from by
    simp [splitChar]]
  have hrec := splitChar_lines '\n' (l.map (fun r => (vipLine r).data))
    (by
      intro x hx
      rcases List.mem_map.mp hx with ⟨r, hr, rfl⟩
      exact (hlines r hr).1)
  rw [List.map_map] at hrec
  simp only [Function.comp_def] at hrec
  rw [hrec]
  have hk1 : keepLine ("# VIP File Generated ".data ++ ts.data) = false := rfl
  have hk2 : keepLine ("# Total VIPs: ".data ++ natDigits l.length) = false := rfl
  have hk3 : keepLine ("# Format: STEAM_ID_64 # Player_Name (expiration)".data) = false := by decide
  have hke : keepLine ([] : List Char) = false := rfl
  simp only [List.filter_cons, hk1, hk2, hk3, hke, Bool.false_eq_true, if_false,
    List.filter_append]
  rw [List.filter_nil]
  rw [List.filter_eq_self.mpr (by
    intro x hx
    rcases List.mem_map.mp hx with ⟨r, hr, rfl⟩
    exact (hlines r hr).2.1)]
  rw [List.append_nil, List.map_map]
  apply List.map_congr_left
  intro r hr
  simp only [Function.comp_def]
  rw [(hlines r hr).2.2.1, (hlines r hr).2.2.2]

/-- Witness for `formatVipList_roundtrip` at a concrete two-record list
(one permanent pc player, one temporary console player). -/
theorem formatVipList_roundtrip_witness :
    specParseVipLines (formatVipList "2024-01-01T00-00-00"
        [⟨"76561198000000001", "alice", none, none⟩,
          ⟨"1100000100000001", "bob", some "2030-01-01", some "trial"⟩])
      = [("76561198000000001".data, true), ("1100000100000001".data, false)] :=
  formatVipList_roundtrip "2024-01-01T00-00-00"
    [⟨"76561198000000001", "alice", none, none⟩,
      ⟨"1100000100000001", "bob", some "2030-01-01", some "trial"⟩]
    (by decide) (by decide)
    (by decide)
    (by
      intro r hr e he
      rcases List.mem_cons.mp hr with rfl | hr2
      · exact Option.noConfusion he
      · rcases List.mem_cons.mp hr2 with rfl | hr3
        · cases he
          decide
        · exact absurd hr3 (List.not_mem_nil _))
    (by
      intro r hr d2 hd
      rcases List.mem_cons.mp hr with rfl | hr2
      · exact Option.noConfusion hd
      · rcases List.mem_cons.mp hr2 with rfl | hr3
        · cases hd
          decide
        · exact absurd hr3 (List.not_mem_nil _))

end VipSentinel
